import Mathlib

/-!
Shallow embedding of `jupyter-zeppelin.py`, a converter from Zeppelin
notebook JSON to Jupyter notebook JSON, together with theorems checking
the repository's specification against the code.

The Python module is embedded function by function:

* the module-level regexes `MD`, `SQL`, `UNKNOWN_MAGIC`, `HTML`
  (anchored prefix matches, `re.match`) become the boolean functions
  `MD_match`, `SQL_match`, `UNKNOWN_MAGIC_match`, `HTML_match`;
* `table_cell_to_html` and `table_to_html` are embedded directly, with
  Python's `html.escape` as `html_escape` and the `csv.reader`
  tab-dialect record scanner as `tsvRecords`;
* `convert_parsed` is embedded as `convert_parsed`, with its loop body
  split into `classify` (the four-way cell classification) and
  `attachResult` (the result-to-output attachment), folded by
  `convertCells`;
* the output-filename resolution of `write_notebook` is embedded as
  `write_notebook`, parameterised by the filesystem's `os.path.exists`
  predicate (the only effect the naming logic consults).

Fallible code (an uncaught `StopIteration` from `next(reader)` on an
empty table, which propagates out of `table_to_html` and
`convert_parsed`) is modelled with `Except String`.
-/

/-- Whitespace in the sense of Python's `\s` regex class and `str.lstrip()`
on the ASCII range: space, tab, newline, carriage return, vertical tab,
form feed.  (Python also accepts non-ASCII Unicode whitespace; the inputs
this development reasons about are ASCII.) -/
def isPySpace (c : Char) : Bool :=
  c = ' ' || c = '\t' || c = '\n' || c = '\r' || c = '\x0b' || c = '\x0c'

/-- Python's `str.lstrip()` with no argument: drop leading whitespace. -/
def pyLStrip (s : String) : String :=
  String.mk (s.data.dropWhile isPySpace)

/-- Python's `str.strip()` with no argument: drop leading and trailing
whitespace.  Used only to state the spec's "non-empty after trimming". -/
def pyStrip (s : String) : String :=
  String.mk (((s.data.dropWhile isPySpace).reverse.dropWhile isPySpace).reverse)

/-- Python's `str.lstrip(chars)`: drop every leading character that is a
member of the given set (note: a character set, not a prefix). -/
def lstripSet (cs : List Char) (s : String) : String :=
  String.mk (s.data.dropWhile (fun c => cs.contains c))

/-- `MD = re.compile(r'%md\s')`, used as `MD.match(code)`: the text starts
with `%md` followed by one whitespace character. -/
def MD_match (s : String) : Bool :=
  match s.data with
  | '%' :: 'm' :: 'd' :: c :: _ => isPySpace c
  | _ => false

/-- `SQL = re.compile(r'%sql\s')`, used as `SQL.match(code)`. -/
def SQL_match (s : String) : Bool :=
  match s.data with
  | '%' :: 's' :: 'q' :: 'l' :: c :: _ => isPySpace c
  | _ => false

/-- `HTML = re.compile(r'%html\s')`, used as `HTML.match(cell)` and
`HTML.match(code)`. -/
def HTML_match (s : String) : Bool :=
  match s.data with
  | '%' :: 'h' :: 't' :: 'm' :: 'l' :: c :: _ => isPySpace c
  | _ => false

/-- Word characters of Python's `\w` on the ASCII range. -/
def isWordChar (c : Char) : Bool :=
  c.isAlphanum || c = '_'

/-- Scan past further `\w` characters and require the first non-word
character to be whitespace.  Because `\w` and `\s` are disjoint, the
backtracking regex `\w+\s` accepts exactly when the maximal word run is
followed by a whitespace character. -/
def wordRunThenSpace : List Char → Bool
  | [] => false
  | c :: rest => if isWordChar c then wordRunThenSpace rest else isPySpace c

/-- `UNKNOWN_MAGIC = re.compile(r'%\w+\s')`: a percent sign, one or more
word characters, then one whitespace character, anchored at the start. -/
def UNKNOWN_MAGIC_match (s : String) : Bool :=
  match s.data with
  | '%' :: c :: rest => isWordChar c && wordRunThenSpace rest
  | _ => false

/-- Concatenation of a list of strings, Python's `"".join`. -/
def strJoin : List String → String
  | [] => ""
  | s :: rest => s ++ strJoin rest

/-- Python's `"\n".join`. -/
def joinNL : List String → String
  | [] => ""
  | [s] => s
  | s :: rest => s ++ "\n" ++ joinNL rest

/-- Per-character action of Python's `html.escape(s)` (with its default
`quote=True`).  CPython performs five sequential `str.replace` calls
(`&`→`&amp;`, `<`→`&lt;`, `>`→`&gt;`, `"`→`&quot;`, `'`→`&#x27;`); since
the ampersand pass runs first and no later replacement target occurs in an
earlier replacement's output, the sequence acts independently on each
character of the original string, which is how it is rendered here. -/
def escapeChar (c : Char) : String :=
  if c = '&' then "&amp;"
  else if c = '<' then "&lt;"
  else if c = '>' then "&gt;"
  else if c = '"' then "&quot;"
  else if c = '\'' then "&#x27;"
  else String.mk [c]

/-- Python's `html.escape` with default quoting. -/
def html_escape (s : String) : String :=
  strJoin (s.data.map escapeChar)

/-- `table_cell_to_html`: a cell that matches the anchored `%html\s`
pattern is returned unchanged ("the contents is already HTML"); any other
cell is HTML-escaped. -/
def table_cell_to_html (cell : String) : String :=
  if HTML_match cell then cell else html_escape cell

/-- Scanner mode of the `csv.reader` record scanner. -/
inductive CsvMode where
  | startField
  | unquoted
  | quoted
deriving DecidableEq

/-- Record scanner of Python's `csv.reader(io, delimiter="\t")` with the
default dialect (`quotechar='"'`, `doublequote=True`), over a text whose
record terminator is `'\n'`: tab separates fields, newline separates
records, a field beginning with a double quote is quoted (inside it tabs
and newlines are literal and `""` denotes one quote), a blank line yields
a record with zero fields, input ending without a final newline still
yields its last record, and empty input yields no records. -/
def csvScan : List Char → CsvMode → List Char → List String → List (List String) → List (List String)
  | [], mode, field, row, rows =>
    if mode = CsvMode.startField && field.isEmpty && row.isEmpty then rows
    else rows ++ [row ++ [String.mk field]]
  | '"' :: '"' :: rest, CsvMode.quoted, field, row, rows =>
    csvScan rest CsvMode.quoted (field ++ ['"']) row rows
  | '"' :: rest, CsvMode.quoted, field, row, rows =>
    csvScan rest CsvMode.unquoted field row rows
  | c :: rest, CsvMode.quoted, field, row, rows =>
    csvScan rest CsvMode.quoted (field ++ [c]) row rows
  | '"' :: rest, CsvMode.startField, field, row, rows =>
    csvScan rest CsvMode.quoted field row rows
  | '\t' :: rest, _, field, row, rows =>
    csvScan rest CsvMode.startField [] (row ++ [String.mk field]) rows
  | '\n' :: rest, mode, field, row, rows =>
    if mode = CsvMode.startField && field.isEmpty && row.isEmpty then
      csvScan rest CsvMode.startField [] [] (rows ++ [[]])
    else
      csvScan rest CsvMode.startField [] [] (rows ++ [row ++ [String.mk field]])
  | c :: rest, _, field, row, rows =>
    csvScan rest CsvMode.unquoted (field ++ [c]) row rows

/-- Records produced by `csv.reader(StringIO(tsv), delimiter="\t")`. -/
def tsvRecords (tsv : String) : List (List String) :=
  csvScan tsv.data CsvMode.startField [] [] []

/-- `table_to_html`: the first record is the header row (each field in a
`<th>` tag, unescaped), every later record is a body row (each field
passed through `table_cell_to_html`, in a `<td>` tag), the rows are joined
by newlines inside a `<table>` tag.  On empty input `next(reader)` raises
an uncaught `StopIteration`, modelled as an error. -/
def table_to_html (tsv : String) : Except String String :=
  match tsvRecords tsv with
  | [] => Except.error "StopIteration"
  | fields :: rows =>
    Except.ok (joinNL
      (["<table>",
        "<tr>" ++ strJoin (fields.map (fun name => "<th>" ++ name ++ "</th>")) ++ "</tr>"]
       ++ rows.map (fun row =>
            "<tr>" ++ strJoin (row.map (fun cell => "<td>" ++ table_cell_to_html cell ++ "</td>")) ++ "</tr>")
       ++ ["</table>"]))

/-- Result record of a Zeppelin paragraph: `result['code']` (the status),
`result.get('type')`, `result['msg']`. -/
structure ZResult where
  code : String
  type : Option String
  msg : String
deriving DecidableEq, Repr

/-- Zeppelin paragraph: `paragraph.get('text')` and
`paragraph.get('result')`. -/
structure Paragraph where
  text : Option String
  result : Option ZResult
deriving DecidableEq, Repr

/-- Parsed Zeppelin note: `zeppelin_note['name']` and
`zeppelin_note['paragraphs']`. -/
structure ZNote where
  name : String
  paragraphs : List Paragraph
deriving DecidableEq, Repr

/-- Jupyter cell type tag (`cell['cell_type']`). -/
inductive CellType where
  | markdown
  | code
  | raw
deriving DecidableEq, Repr

/-- Output record attached to a code cell (in the order the Python dict
is built: `output_type`, `metadata`, `execution_count`, `data`). -/
structure Output where
  output_type : String
  metadata : List (String × String)
  execution_count : Nat
  data : List (String × String)
deriving DecidableEq, Repr

/-- Jupyter cell as built by `convert_parsed`.  Keys absent from the
Python dict for a given cell type are `none` here: markdown and raw cells
carry no `execution_count` and no `outputs` key; code cells carry both. -/
structure Cell where
  cell_type : CellType
  execution_count : Option Nat
  metadata : List (String × String)
  outputs : Option (List Output)
  source : String
deriving DecidableEq, Repr

/-- Four-way classification of a paragraph's left-stripped text
(lines 75-95 of the source): `%md\s` gives a markdown cell with the text
stripped of leading `%`/`m`/`d` characters and then of leading newlines
(Python's `code.lstrip('%md').lstrip("\n")`); `%sql\s` or `%html\s` gives
a code cell whose source is the text with one extra `%` prefixed; any
other `%\w+\s` gives a raw cell with the verbatim text; everything else
gives a code cell with auto-scroll metadata and the verbatim text. -/
def classify (index : Nat) (code : String) : Cell :=
  if MD_match code then
    { cell_type := CellType.markdown
      execution_count := none
      metadata := []
      outputs := none
      source := lstripSet ['\n'] (lstripSet ['%', 'm', 'd'] code) }
  else if SQL_match code || HTML_match code then
    { cell_type := CellType.code
      execution_count := some index
      metadata := []
      outputs := some []
      source := "%" ++ code }
  else if UNKNOWN_MAGIC_match code then
    { cell_type := CellType.raw
      execution_count := none
      metadata := [("format", "text/plain")]
      outputs := none
      source := code }
  else
    { cell_type := CellType.code
      execution_count := some index
      metadata := [("autoscroll", "auto")]
      outputs := some []
      source := code }

/-- MIME dictionary built from a successful result (lines 102-109):
`TEXT` gives a `text/plain` payload, `HTML` a `text/html` payload, `TABLE`
a `text/html` payload rendered by `table_to_html` (whose `StopIteration`
propagates), and any other or absent type leaves the dictionary empty. -/
def output_by_mime_type (r : ZResult) : Except String (List (String × String)) :=
  match r.type with
  | some "TEXT" => Except.ok [("text/plain", r.msg)]
  | some "HTML" => Except.ok [("text/html", r.msg)]
  | some "TABLE" =>
    match table_to_html r.msg with
    | Except.error e => Except.error e
    | Except.ok t => Except.ok [("text/html", t)]
  | _ => Except.ok []

/-- Result attachment (lines 99-116): only when the cell is of the code
variant and the paragraph carries a result record, and that result's
status is `SUCCESS`, the cell's `outputs` list is replaced by one
`execute_result` record carrying the current execution index and the MIME
dictionary — note the record is attached for every successful result,
whatever its type. -/
def attachResult (index : Nat) (cell : Cell) (result : Option ZResult) : Except String (Option Cell) :=
  match result with
  | none => Except.ok (some cell)
  | some r =>
    if cell.cell_type = CellType.code then
      if r.code = "SUCCESS" then
        match output_by_mime_type r with
        | Except.error e => Except.error e
        | Except.ok omt =>
          Except.ok (some { cell with
            outputs := some [{ output_type := "execute_result"
                               metadata := []
                               execution_count := index
                               data := omt }] })
      else Except.ok (some cell)
    else Except.ok (some cell)

/-- Body of the paragraph loop of `convert_parsed` at one paragraph:
`code = paragraph.get('text'); if not code: continue` drops a paragraph
whose text is absent or the empty string (yielding `none`); otherwise the
text is left-stripped, classified, and the paragraph's result attached. -/
def emitCell (index : Nat) (p : Paragraph) : Except String (Option Cell) :=
  match p.text with
  | none => Except.ok none
  | some t =>
    if t = "" then Except.ok none
    else attachResult index (classify index (pyLStrip t)) p.result

/-- The paragraph loop of `convert_parsed`: `index` advances by one for
every emitted cell (the `continue` for dropped paragraphs skips the
`index += 1` at the bottom of the loop). -/
def convertCells (index : Nat) : List Paragraph → Except String (List Cell)
  | [] => Except.ok []
  | p :: ps =>
    match emitCell index p with
    | Except.error e => Except.error e
    | Except.ok none => convertCells index ps
    | Except.ok (some c) =>
      match convertCells (index + 1) ps with
      | Except.error e => Except.error e
      | Except.ok cs => Except.ok (c :: cs)

/-- Fixed `kernelspec` metadata block (lines 122-126). -/
structure Kernelspec where
  display_name : String
  language : String
  name : String
deriving DecidableEq, Repr

/-- Fixed `language_info` metadata block (lines 127-134). -/
structure LanguageInfo where
  codemirror_mode : String
  file_extension : String
  mimetype : String
  name : String
  pygments_lexer : String
  version : String
deriving DecidableEq, Repr

/-- Notebook-level metadata. -/
structure NotebookMeta where
  kernelspec : Kernelspec
  language_info : LanguageInfo
deriving DecidableEq, Repr

/-- Notebook value handed to `nbformat.from_dict` (lines 120-139). -/
structure Notebook where
  metadata : NotebookMeta
  nbformat : Nat
  nbformat_minor : Nat
  cells : List Cell
deriving DecidableEq, Repr

/-- The constant metadata block of every converted notebook. -/
def fixed_metadata : NotebookMeta :=
  { kernelspec :=
      { display_name := "Spark 2.0.0 - Scala 2.11"
        language := "scala"
        name := "spark2-scala" }
    language_info :=
      { codemirror_mode := "text/x-scala"
        file_extension := ".scala"
        mimetype := "text/x-scala"
        name := "scala"
        pygments_lexer := "scala"
        version := "2.11.8" } }

/-- `convert_parsed`: strip slashes from the note's name, run the
paragraph loop from index 0, and wrap the cells with the fixed metadata
and format version 4.2. -/
def convert_parsed (note : ZNote) : Except String (String × Notebook) :=
  match convertCells 0 note.paragraphs with
  | Except.error e => Except.error e
  | Except.ok cells =>
    Except.ok (String.mk (note.name.data.filter (fun c => c ≠ '/')),
      { metadata := fixed_metadata
        nbformat := 4
        nbformat_minor := 2
        cells := cells })

/-- The `for i in range(1, 1000)` probe loop of `write_notebook`, given
the list of remaining loop indices and the current value of the
`filename` variable.  Each iteration overwrites `filename` with the
suffixed candidate, breaks when it does not exist, and contains the
source's `if i == 1000: raise RuntimeError(...)` check verbatim; when the
loop runs off the end of the range the last candidate is kept and written
to even though it exists. -/
def probeLoop (ex : String → Bool) (notebook_name : String) : List Nat → String → Except String String
  | [], filename => Except.ok filename
  | i :: rest, _ =>
    let filename := notebook_name ++ " (" ++ toString i ++ ").ipynb"
    if !(ex filename) then Except.ok filename
    else if i = 1000 then
      Except.error ("Cannot write " ++ notebook_name ++ ": versions 1-1000 already exist.")
    else probeLoop ex notebook_name rest filename

/-- Output-filename resolution of `write_notebook` (lines 148-157),
parameterised by the filesystem's `os.path.exists` predicate `ex`: a
given non-empty path is used as is; otherwise `<name>.ipynb` is used if
free, else the probe loop over indices 1..999 runs.  The returned value
is the filename the function then opens for writing. -/
def write_notebook (ex : String → Bool) (notebook_name : String) (path : Option String) : Except String String :=
  let filename := path.getD ""
  if filename = "" then
    let filename := notebook_name ++ ".ipynb"
    if ex filename then probeLoop ex notebook_name (List.range' 1 999) filename
    else Except.ok filename
  else Except.ok filename

/-- Boolean form of the paragraph-emission test: the paragraph's text is
present and non-empty (Python's truthiness test `if not code`). -/
def has_text (p : Paragraph) : Bool :=
  match p.text with
  | none => false
  | some t => decide (t ≠ "")

/-- Dummy cell used as the default of total list indexing. -/
def defaultCell : Cell :=
  { cell_type := CellType.raw
    execution_count := none
    metadata := []
    outputs := none
    source := "" }

/-- Result record with successful status and an unrecognized type. -/
def rC1 : ZResult :=
  { code := "SUCCESS", type := some "FOO", msg := "" }

/-- Paragraph carrying a successful result of unrecognized type. -/
def pC1 : Paragraph :=
  { text := some "x", result := some rC1 }

/-- One-paragraph note around `pC1`. -/
def noteC1 : ZNote :=
  { name := "n", paragraphs := [pC1] }

/-- Cell emitted for `pC1`: an output record is attached even though the
result type is unrecognized, with an empty MIME dictionary. -/
def cC1 : Cell :=
  { cell_type := CellType.code
    execution_count := some 0
    metadata := [("autoscroll", "auto")]
    outputs := some [{ output_type := "execute_result"
                       metadata := []
                       execution_count := 0
                       data := [] }]
    source := "x" }

/-- Notebook produced from `noteC1`. -/
def nbC1 : Notebook :=
  { metadata := fixed_metadata, nbformat := 4, nbformat_minor := 2, cells := [cC1] }

/-- Boolean form of the spec's "text non-empty after trimming". -/
def trimmed_has_text (p : Paragraph) : Bool :=
  match p.text with
  | none => false
  | some t => decide (pyStrip t ≠ "")

/-- Note whose only paragraph has whitespace-only text. -/
def noteWS : ZNote :=
  { name := "n", paragraphs := [{ text := some " ", result := none }] }

/-- Notebook produced from `noteWS`: the whitespace-only paragraph still
emits an (empty-source) code cell. -/
def nbWS : Notebook :=
  { metadata := fixed_metadata, nbformat := 4, nbformat_minor := 2
    cells := [{ cell_type := CellType.code
                execution_count := some 0
                metadata := [("autoscroll", "auto")]
                outputs := some []
                source := "" }] }

/-- Two-paragraph note: a markdown paragraph followed by a plain code
paragraph with a successful TEXT result. -/
def noteW : ZNote :=
  { name := "n"
    paragraphs :=
      [{ text := some "%md x", result := none },
       { text := some "y", result := some { code := "SUCCESS", type := some "TEXT", msg := "out" } }] }

/-- Notebook produced from `noteW`. -/
def nbW : Notebook :=
  { metadata := fixed_metadata, nbformat := 4, nbformat_minor := 2
    cells :=
      [{ cell_type := CellType.markdown
         execution_count := none
         metadata := []
         outputs := none
         source := " x" },
       { cell_type := CellType.code
         execution_count := some 1
         metadata := [("autoscroll", "auto")]
         outputs := some [{ output_type := "execute_result"
                            metadata := []
                            execution_count := 1
                            data := [("text/plain", "out")] }]
         source := "y" }] }

/-! ### Helper lemmas about `classify`, `attachResult`, `emitCell` -/

theorem classify_outputs (i : Nat) (s : String) :
    (classify i s).outputs = none ∨ (classify i s).outputs = some [] := by
  unfold classify
  (repeat' split) <;> simp

theorem classify_exec (i : Nat) (s : String) :
    (classify i s).cell_type = CellType.code → (classify i s).execution_count = some i := by
  unfold classify
  (repeat' split) <;> simp

theorem empty_outputs_not_attached (os : Option (List Output))
    (h : os = none ∨ os = some []) : ¬ ∃ l, os = some l ∧ l ≠ [] := by
  rintro ⟨l, hl, hne⟩
  rcases h with h | h <;> subst h
  · exact Option.noConfusion hl
  · exact hne (Option.some.inj hl).symm

theorem empty_outputs_getD (os : Option (List Output))
    (h : os = none ∨ os = some []) : os.getD [] = [] := by
  rcases h with h | h <;> subst h <;> rfl

theorem attachResult_spec (i : Nat) (cell : Cell) (res : Option ZResult) (c : Cell)
    (hout : cell.outputs = none ∨ cell.outputs = some [])
    (h : attachResult i cell res = Except.ok (some c)) :
    c.cell_type = cell.cell_type ∧
    c.execution_count = cell.execution_count ∧
    ((∃ l, c.outputs = some l ∧ l ≠ []) ↔
      (cell.cell_type = CellType.code ∧ ∃ r, res = some r ∧ r.code = "SUCCESS")) ∧
    (∀ o ∈ c.outputs.getD [], o.execution_count = i) := by
  cases res with
  | none =>
    simp only [attachResult] at h
    have hc : cell = c := by simpa using h
    subst hc
    refine ⟨rfl, rfl, ?_, ?_⟩
    · constructor
      · intro hl
        exact absurd hl (empty_outputs_not_attached _ hout)
      · rintro ⟨-, r, hr, -⟩
        cases hr
    · intro o ho
      rw [empty_outputs_getD _ hout] at ho
      exact absurd ho (List.not_mem_nil o)
  | some r =>
    simp only [attachResult] at h
    split at h
    · rename_i hcode
      split at h
      · rename_i hsucc
        cases homt : output_by_mime_type r with
        | error e => rw [homt] at h; simp at h
        | ok omt =>
          rw [homt] at h
          have hc : { cell with
              outputs := some [{ output_type := "execute_result"
                                 metadata := []
                                 execution_count := i
                                 data := omt }] } = c := by simpa using h
          subst hc
          refine ⟨rfl, rfl, ?_, ?_⟩
          · simp [hcode, hsucc]
          · intro o ho
            simp at ho
            subst ho
            rfl
      · rename_i hsucc
        have hc : cell = c := by simpa using h
        subst hc
        refine ⟨rfl, rfl, ?_, ?_⟩
        · constructor
          · intro hl
            exact absurd hl (empty_outputs_not_attached _ hout)
          · rintro ⟨-, r', hr', hs'⟩
            cases hr'
            exact absurd hs' hsucc
        · intro o ho
          rw [empty_outputs_getD _ hout] at ho
          exact absurd ho (List.not_mem_nil o)
    · rename_i hcode
      have hc : cell = c := by simpa using h
      subst hc
      refine ⟨rfl, rfl, ?_, ?_⟩
      · constructor
        · intro hl
          exact absurd hl (empty_outputs_not_attached _ hout)
        · rintro ⟨hc', -⟩
          exact absurd hc' hcode
      · intro o ho
        rw [empty_outputs_getD _ hout] at ho
        exact absurd ho (List.not_mem_nil o)

theorem attachResult_ne_none (i : Nat) (cell : Cell) (res : Option ZResult) :
    attachResult i cell res ≠ Except.ok none := by
  cases res with
  | none => simp [attachResult]
  | some r =>
    simp only [attachResult]
    split
    · split
      · cases homt : output_by_mime_type r <;> simp
      · simp
    · simp

theorem emitCell_spec (i : Nat) (p : Paragraph) (c : Cell)
    (h : emitCell i p = Except.ok (some c)) :
    ((∃ l, c.outputs = some l ∧ l ≠ []) ↔
      (c.cell_type = CellType.code ∧ ∃ r, p.result = some r ∧ r.code = "SUCCESS")) ∧
    (c.cell_type = CellType.code → c.execution_count = some i) ∧
    (∀ o ∈ c.outputs.getD [], o.execution_count = i) := by
  obtain ⟨txt, res⟩ := p
  cases txt with
  | none => simp [emitCell] at h
  | some t =>
    simp only [emitCell] at h
    split at h
    · simp at h
    · have hspec := attachResult_spec i (classify i (pyLStrip t)) res c
        (classify_outputs i (pyLStrip t)) h
      obtain ⟨hct, hec, hiff, hexec⟩ := hspec
      refine ⟨?_, ?_, hexec⟩
      · rw [hiff, hct]
      · intro hcode
        rw [hec, classify_exec i (pyLStrip t) (hct ▸ hcode)]

theorem emitCell_none_iff (i : Nat) (p : Paragraph) :
    emitCell i p = Except.ok none ↔ has_text p = false := by
  obtain ⟨txt, res⟩ := p
  cases txt with
  | none => simp [emitCell, has_text]
  | some t =>
    simp only [emitCell, has_text]
    split
    · simp_all
    · rename_i hne
      constructor
      · intro h
        exact absurd h (attachResult_ne_none i (classify i (pyLStrip t)) res)
      · intro h
        simp at h
        exact absurd h hne

theorem emitCell_some_has_text (i : Nat) (p : Paragraph) (c : Cell)
    (h : emitCell i p = Except.ok (some c)) : has_text p = true := by
  by_contra hh
  have := (emitCell_none_iff i p).mpr (Bool.eq_false_iff.mpr hh)
  rw [this] at h
  simp at h

theorem convertCells_length (ps : List Paragraph) : ∀ (ix : Nat) (cs : List Cell),
    convertCells ix ps = Except.ok cs →
    cs.length = (ps.filter has_text).length := by
  induction ps with
  | nil =>
    intro ix cs h
    simp only [convertCells] at h
    have : ([] : List Cell) = cs := by simpa using h
    simp [← this]
  | cons p ps ih =>
    intro ix cs h
    simp only [convertCells] at h
    cases he : emitCell ix p with
    | error e => rw [he] at h; simp at h
    | ok oc =>
      rw [he] at h
      cases oc with
      | none =>
        have hft : has_text p = false := (emitCell_none_iff ix p).mp he
        simp only [List.filter_cons, hft, if_false, Bool.false_eq_true]
        exact ih ix cs h
      | some c =>
        have hft : has_text p = true := emitCell_some_has_text ix p c he
        cases hcs : convertCells (ix + 1) ps with
        | error e => rw [hcs] at h; simp at h
        | ok cs' =>
          rw [hcs] at h
          have : c :: cs' = cs := by simpa using h
          subst this
          simp only [List.filter_cons, hft, if_true, List.length_cons]
          rw [ih (ix + 1) cs' hcs]

theorem convertCells_exec (ps : List Paragraph) : ∀ (ix : Nat) (cs : List Cell),
    convertCells ix ps = Except.ok cs →
    ∀ j, j < cs.length →
      (((cs.getD j defaultCell).cell_type = CellType.code →
        (cs.getD j defaultCell).execution_count = some (ix + j)) ∧
       (∀ o ∈ (cs.getD j defaultCell).outputs.getD [], o.execution_count = ix + j)) := by
  induction ps with
  | nil =>
    intro ix cs h j hj
    simp only [convertCells] at h
    have : ([] : List Cell) = cs := by simpa using h
    subst this
    simp at hj
  | cons p ps ih =>
    intro ix cs h j hj
    simp only [convertCells] at h
    cases he : emitCell ix p with
    | error e => rw [he] at h; simp at h
    | ok oc =>
      rw [he] at h
      cases oc with
      | none => exact ih ix cs h j hj
      | some c =>
        cases hcs : convertCells (ix + 1) ps with
        | error e => rw [hcs] at h; simp at h
        | ok cs' =>
          rw [hcs] at h
          have hcons : c :: cs' = cs := by simpa using h
          subst hcons
          cases j with
          | zero =>
            simp only [List.getD_cons_zero, Nat.add_zero]
            obtain ⟨-, hex, hout⟩ := emitCell_spec ix p c he
            exact ⟨hex, hout⟩
          | succ j =>
            simp only [List.getD_cons_succ]
            have hj' : j < cs'.length := by
              simp only [List.length_cons] at hj
              omega
            have := ih (ix + 1) cs' hcs j hj'
            have harith : ix + 1 + j = ix + (j + 1) := by omega
            rw [harith] at this
            exact this

/-! ### Claim theorems about `convert_parsed` -/

/-- C2 (amended): the number of emitted cells equals the number of
paragraphs whose `text` is present and non-empty as a string; trimming
plays no role in the test, so a whitespace-only paragraph still yields a
cell. -/
theorem convert_parsed_cell_count (note : ZNote) (nm : String) (nb : Notebook)
    (h : convert_parsed note = Except.ok (nm, nb)) :
    nb.cells.length = (note.paragraphs.filter has_text).length := by
  unfold convert_parsed at h
  cases hcs : convertCells 0 note.paragraphs with
  | error e => rw [hcs] at h; simp at h
  | ok cells =>
    rw [hcs] at h
    simp only [Except.ok.injEq, Prod.mk.injEq] at h
    obtain ⟨-, hnb⟩ := h
    rw [← hnb]
    simpa using convertCells_length note.paragraphs 0 cells hcs

/-- C4: in every successfully converted notebook, the cell at position
`j` (zero-based, in emission order), when it is a code cell, carries
execution count `j`, and every output record attached to it carries
execution count `j` as well.  The index is per emitted cell: markdown and
raw cells occupy positions too. -/
theorem convert_parsed_execution_index (note : ZNote) (nm : String) (nb : Notebook)
    (h : convert_parsed note = Except.ok (nm, nb))
    (j : Nat) (hj : j < nb.cells.length) :
    ((nb.cells.getD j defaultCell).cell_type = CellType.code →
      (nb.cells.getD j defaultCell).execution_count = some j) ∧
    (∀ o ∈ (nb.cells.getD j defaultCell).outputs.getD [], o.execution_count = j) := by
  unfold convert_parsed at h
  cases hcs : convertCells 0 note.paragraphs with
  | error e => rw [hcs] at h; simp at h
  | ok cells =>
    rw [hcs] at h
    simp only [Except.ok.injEq, Prod.mk.injEq] at h
    obtain ⟨-, hnb⟩ := h
    have hcells : nb.cells = cells := by rw [← hnb]
    rw [hcells] at hj ⊢
    have := convertCells_exec note.paragraphs 0 cells hcs j hj
    simpa using this

/-- C1 (counterexample): the paragraph `pC1` carries a successful result
whose type `FOO` is none of TEXT, HTML, TABLE, yet the emitted cell
carries an attached output record (with an empty MIME dictionary) —
refuting "a successful result with any other type attaches no output
record". -/
theorem convert_unrecognized_type_attaches_output :
    convert_parsed noteC1 = Except.ok ("n", nbC1) ∧
    nbC1.cells = [cC1] ∧
    cC1.cell_type = CellType.code ∧
    rC1.code = "SUCCESS" ∧
    rC1.type ∉ [some "TEXT", some "HTML", some "TABLE"] ∧
    (∃ l, cC1.outputs = some l ∧ l ≠ []) := by
  refine ⟨rfl, rfl, rfl, rfl, by decide, ?_⟩
  exact ⟨[{ output_type := "execute_result", metadata := [], execution_count := 0, data := [] }],
    rfl, by decide⟩

/-- C1 (amended): a cell emitted for a paragraph carries an attached
(non-empty) output record if and only if the cell is of the code variant
and the paragraph carries a result record with `SUCCESS` status — with no
condition on the result's type. -/
theorem emitCell_output_attached_iff (i : Nat) (p : Paragraph) (c : Cell)
    (h : emitCell i p = Except.ok (some c)) :
    (∃ l, c.outputs = some l ∧ l ≠ []) ↔
      (c.cell_type = CellType.code ∧ ∃ r, p.result = some r ∧ r.code = "SUCCESS") :=
  (emitCell_spec i p c h).1

theorem emitCell_output_attached_iff_witness :
    (∃ l, cC1.outputs = some l ∧ l ≠ []) ↔
      (cC1.cell_type = CellType.code ∧ ∃ r, pC1.result = some r ∧ r.code = "SUCCESS") :=
  emitCell_output_attached_iff 0 pC1 cC1 rfl

/-- C2 (counterexample): the whitespace-only paragraph of `noteWS` has
empty text after trimming, yet conversion emits one cell for it —
refuting "the number of cells equals the count of paragraphs whose text
is non-empty after trimming". -/
theorem convert_whitespace_paragraph_emits_cell :
    convert_parsed noteWS = Except.ok ("n", nbWS) ∧
    nbWS.cells.length = 1 ∧
    (noteWS.paragraphs.filter trimmed_has_text).length = 0 ∧
    nbWS.cells.length ≠ (noteWS.paragraphs.filter trimmed_has_text).length :=
  ⟨rfl, rfl, rfl, by decide⟩

theorem convert_parsed_cell_count_witness :
    nbWS.cells.length = (noteWS.paragraphs.filter has_text).length :=
  convert_parsed_cell_count noteWS "n" nbWS rfl

theorem convert_parsed_execution_index_witness :
    ((nbW.cells.getD 1 defaultCell).cell_type = CellType.code →
      (nbW.cells.getD 1 defaultCell).execution_count = some 1) ∧
    (∀ o ∈ (nbW.cells.getD 1 defaultCell).outputs.getD [], o.execution_count = 1) :=
  convert_parsed_execution_index noteW "n" nbW rfl 1 (by decide)

/-- C5: the four-way classification on concrete inputs: `%md\nHello`
gives a markdown cell with source `Hello`; `%sql select 1` gives a code
cell with the marker doubled; the unknown magic `%foo bar` gives a raw
cell with verbatim source and a plain-text format marker; `print(1)`
gives a code cell with auto-scroll metadata and unmodified source. -/
theorem classify_directive_examples :
    emitCell 0 { text := some "%md\nHello", result := none } =
      Except.ok (some { cell_type := CellType.markdown, execution_count := none
                        metadata := [], outputs := none, source := "Hello" }) ∧
    emitCell 0 { text := some "%sql select 1", result := none } =
      Except.ok (some { cell_type := CellType.code, execution_count := some 0
                        metadata := [], outputs := some [], source := "%%sql select 1" }) ∧
    emitCell 0 { text := some "%foo bar", result := none } =
      Except.ok (some { cell_type := CellType.raw, execution_count := none
                        metadata := [("format", "text/plain")], outputs := none
                        source := "%foo bar" }) ∧
    emitCell 0 { text := some "print(1)", result := none } =
      Except.ok (some { cell_type := CellType.code, execution_count := some 0
                        metadata := [("autoscroll", "auto")], outputs := some []
                        source := "print(1)" }) :=
  ⟨rfl, rfl, rfl, rfl⟩

/-- C7: rendering the tab-separated table with header `a\tb` and body
row `1\t2` yields exactly the expected markup string. -/
theorem table_to_html_round_trip :
    table_to_html "a\tb\n1\t2" =
      Except.ok "<table>\n<tr><th>a</th><th>b</th></tr>\n<tr><td>1</td><td>2</td></tr>\n</table>" :=
  rfl

/-- C8: on empty input the table renderer fails (the uncaught
`StopIteration` from `next(reader)`) instead of returning markup. -/
theorem table_to_html_empty_fails :
    table_to_html "" = Except.error "StopIteration" :=
  rfl

/-- C9: conversion is deterministic — equal parsed inputs produce equal
outputs (name, cells and the fixed metadata alike). -/
theorem convert_parsed_deterministic (n₁ n₂ : ZNote) (h : n₁ = n₂) :
    convert_parsed n₁ = convert_parsed n₂ := by
  rw [h]

theorem convert_parsed_deterministic_witness :
    convert_parsed noteW = convert_parsed noteW :=
  convert_parsed_deterministic noteW noteW rfl

set_option maxRecDepth 8000 in
/-- C3: filename resolution at the exhaustion point.  On a filesystem
where the base name and every suffixed variant exist, `write_notebook`
does not fail: the `i == 1000` guard of its raise statement never holds
(the loop indices run 1..999), so the loop runs off the end and the
function proceeds to write to the still-existing `notebook (999).ipynb`. -/
theorem write_notebook_exhaustion_overwrites :
    write_notebook (fun _ => true) "notebook" none = Except.ok "notebook (999).ipynb" := by
  rfl

theorem escapeChar_safe (c : Char) :
    ∀ c' ∈ (escapeChar c).data, c' ≠ '<' ∧ c' ≠ '>' ∧ c' ≠ '"' ∧ c' ≠ '\'' := by
  unfold escapeChar
  (repeat' split) <;> first
    | decide
    | (intro c' hc'
       have hc : c' ∈ [c] := hc'
       simp at hc
       subst hc
       refine ⟨?_, ?_, ?_, ?_⟩ <;> assumption)

theorem html_escape_safe (s : String) :
    ∀ c' ∈ (html_escape s).data, c' ≠ '<' ∧ c' ≠ '>' ∧ c' ≠ '"' ∧ c' ≠ '\'' := by
  unfold html_escape
  generalize s.data = l
  induction l with
  | nil =>
    intro c' hc'
    have : c' ∈ ([] : List Char) := hc'
    simp at this
  | cons a l ih =>
    intro c' hc'
    have hsplit : c' ∈ (escapeChar a ++ strJoin (l.map escapeChar)).data := hc'
    rw [String.data_append] at hsplit
    rcases List.mem_append.mp hsplit with h | h
    · exact escapeChar_safe a c' h
    · exact ih c' h

/-- C6 (counterexample): a field whose content starts with a space and
then `%html ` passes the claim's left-trimmed test, yet the renderer
escapes it rather than emitting it verbatim: the `%html\s` pattern is
anchored at the field's first character and no trimming happens. -/
theorem table_cell_left_trim_not_honored :
    HTML_match (pyLStrip " %html <b>x</b>") = true ∧
    table_cell_to_html " %html <b>x</b>" ≠ " %html <b>x</b>" ∧
    table_cell_to_html " %html <b>x</b>" = " %html &lt;b&gt;x&lt;/b&gt;" := by
  refine ⟨rfl, ?_, rfl⟩
  decide

/-- C6 (amended): a body-row field is emitted verbatim iff its content
starts, at its very first character with no trimming, with `%html`
followed by whitespace; every other field is HTML-escaped, so its
rendering contains no raw angle bracket or quote character. -/
theorem table_cell_escape_rule :
    table_cell_to_html "<b>x</b>" = "&lt;b&gt;x&lt;/b&gt;" ∧
    table_cell_to_html "%html <b>x</b>" = "%html <b>x</b>" ∧
    (∀ s, HTML_match s = false →
      ∀ c' ∈ (table_cell_to_html s).data, c' ≠ '<' ∧ c' ≠ '>' ∧ c' ≠ '"' ∧ c' ≠ '\'') ∧
    (∀ s, HTML_match s = true → table_cell_to_html s = s) := by
  refine ⟨rfl, rfl, ?_, ?_⟩
  · intro s hs
    unfold table_cell_to_html
    rw [hs]
    simp only [Bool.false_eq_true, if_false]
    exact html_escape_safe s
  · intro s hs
    simp [table_cell_to_html, hs]

theorem table_cell_escape_rule_witness :
    (HTML_match "a<b" = false ∧
     ∀ c' ∈ (table_cell_to_html "a<b").data, c' ≠ '<' ∧ c' ≠ '>' ∧ c' ≠ '"' ∧ c' ≠ '\'') ∧
    (HTML_match "%html y" = true ∧ table_cell_to_html "%html y" = "%html y") :=
  ⟨⟨rfl, table_cell_escape_rule.2.2.1 "a<b" rfl⟩,
   ⟨rfl, table_cell_escape_rule.2.2.2 "%html y" rfl⟩⟩

theorem headerField_in_strJoin (f : String) (fields : List String) (hf : f ∈ fields) :
    List.IsInfix ("<th>" ++ f ++ "</th>").data
      (strJoin (fields.map (fun name => "<th>" ++ name ++ "</th>"))).data := by
  induction fields with
  | nil => cases hf
  | cons a fs ih =>
    have hdata : (strJoin ((a :: fs).map (fun name => "<th>" ++ name ++ "</th>"))).data
        = ("<th>" ++ a ++ "</th>").data
          ++ (strJoin (fs.map (fun name => "<th>" ++ name ++ "</th>"))).data :=
      String.data_append _ _
    rw [hdata]
    rcases List.mem_cons.mp hf with h | h
    · subst h
      exact (List.prefix_append _ _).isInfix
    · exact (ih h).trans (List.suffix_append _ _).isInfix

/-- Shape of the joined table markup: the header join sits between fixed
markup on both sides. -/
theorem joinNL_table_shape (J b : String) (bs : List String) :
    joinNL ("<table>" :: ("<tr>" ++ J ++ "</tr>") :: b :: bs)
      = ("<table>" ++ "\n" ++ "<tr>") ++ J ++ ("</tr>" ++ "\n" ++ joinNL (b :: bs)) := by
  show "<table>" ++ "\n" ++ (("<tr>" ++ J ++ "</tr>") ++ "\n" ++ joinNL (b :: bs)) = _
  simp only [String.append_assoc]

/-- C10: header-row fields are emitted verbatim: whenever the renderer
succeeds, for every field `f` of the header record the unescaped string
`<th>f</th>` occurs inside the produced markup, whatever characters `f`
contains (header fields are neither HTML-escaped nor tested for the
`%html` directive). -/
theorem table_header_verbatim (tsv : String) (fields : List String)
    (rows : List (List String)) (f : String) (out : String)
    (hrec : tsvRecords tsv = fields :: rows)
    (hf : f ∈ fields)
    (hout : table_to_html tsv = Except.ok out) :
    List.IsInfix ("<th>" ++ f ++ "</th>").data out.data := by
  unfold table_to_html at hout
  rw [hrec] at hout
  simp only [Except.ok.injEq, List.cons_append, List.nil_append] at hout
  subst hout
  rcases htl : rows.map (fun row =>
      "<tr>" ++ strJoin (row.map (fun cell => "<td>" ++ table_cell_to_html cell ++ "</td>")) ++ "</tr>")
      ++ ["</table>"] with _ | ⟨b, bs⟩
  · exact absurd htl (by simp)
  · rw [joinNL_table_shape]
    refine (headerField_in_strJoin f fields hf).trans ?_
    refine ⟨("<table>" ++ "\n" ++ "<tr>").data, ("</tr>" ++ "\n" ++ joinNL (b :: bs)).data, ?_⟩
    simp [String.data_append]

theorem table_header_verbatim_witness :
    List.IsInfix ("<th>" ++ "<&" ++ "</th>").data
      ("<table>\n<tr><th><&</th><th>b</th></tr>\n<tr><td>1</td><td>2</td></tr>\n</table>" : String).data :=
  table_header_verbatim "<&\tb\n1\t2" ["<&", "b"] [["1", "2"]] "<&"
    "<table>\n<tr><th><&</th><th>b</th></tr>\n<tr><td>1</td><td>2</td></tr>\n</table>"
    rfl (by decide) rfl
